import Mathlib

/-!
Verification of the Math-Agentic-RAG repository against its specification.

The frontend (frontend/src/utils/api.js and frontend/src/pages/Search.js)
is embedded directly from the JavaScript source. Confidence scores are
modelled as rationals; fetch outcomes and JavaScript exceptions are made
explicit as inductive data. The backend routing engine described by the
specification is not among the provided source files; the parts of it
needed by the claims are modelled from the spec and marked as such.
-/

set_option maxRecDepth 10000

namespace MathAgenticRag

/-! Embedding of frontend/src/utils/api.js -/

/-- Shape of the value returned by the API wrapper functions in
utils/api.js: the parsed data with success set, or an error message with
success cleared. -/
inductive ApiResult (α : Type) where
  | success (data : α)
  | failure (err : String)
deriving DecidableEq

/-- Everything one fetch call can present to the try block of an API
wrapper: the fetch itself may reject with a message, or it yields an HTTP
response with an ok flag, a numeric status, and a body whose JSON parse
may itself fail. -/
inductive FetchOutcome (α : Type) where
  | fetchError (msg : String)
  | response (ok : Bool) (status : Nat) (body : Except String α)

/-- Body of the try block shared by searchMathProblem and submitFeedback
in utils/api.js: a non-ok response throws an HTTP error carrying the
status, otherwise the JSON body is returned (its parse may throw).
Throwing is modelled as Except.error. -/
def apiTryBody {α : Type} (o : FetchOutcome α) : Except String α :=
  match o with
  | .fetchError m => .error m
  | .response ok status body =>
      if ok then body
      else .error (String.append "HTTP error! status: " (toString status))

/-- searchMathProblem from utils/api.js: runs the try block and catches
every thrown error, turning it into a failure value. -/
def searchMathProblem {α : Type} (o : FetchOutcome α) : ApiResult α :=
  match apiTryBody o with
  | .ok d => .success d
  | .error e => .failure e

/-- submitFeedback from utils/api.js: identical catch-all structure over
the feedback endpoint. -/
def submitFeedback {α : Type} (o : FetchOutcome α) : ApiResult α :=
  match apiTryBody o with
  | .ok d => .success d
  | .error e => .failure e

/-- getSourceDisplayName from utils/api.js: a switch on the source tag
with a default branch returning the tag unchanged. -/
def getSourceDisplayName (source : String) : String :=
  if source = "KB" then "Knowledge Base"
  else if source = "MCP" then "Web Search"
  else source

/-- Level and color pair returned by getConfidenceLevel. -/
structure ConfidenceInfo where
  level : String
  color : String
deriving DecidableEq

/-- getConfidenceLevel from utils/api.js: cascading lower-bound checks on
the confidence score. -/
def getConfidenceLevel (score : ℚ) : ConfidenceInfo :=
  if score ≥ 0.8 then ⟨"High", "green"⟩
  else if score ≥ 0.6 then ⟨"Medium", "yellow"⟩
  else if score ≥ 0.4 then ⟨"Low", "orange"⟩
  else ⟨"Very Low", "red"⟩

/-- C4: the thresholds of getConfidenceLevel are inclusive — the level is
High exactly when the score is at least 0.8, and Medium exactly when the
score lies in the half-open interval from 0.6 up to but excluding 0.8. -/
theorem getConfidenceLevel_boundaries (s : ℚ) :
    ((getConfidenceLevel s).level = "High" ↔ 0.8 ≤ s) ∧
    ((getConfidenceLevel s).level = "Medium" ↔ 0.6 ≤ s ∧ s < 0.8) := by
  unfold getConfidenceLevel
  split_ifs with h1 h2 h3 <;>
    refine ⟨⟨fun h => ?_, fun h => ?_⟩, ⟨fun h => ?_, fun h => ?_⟩⟩ <;>
    simp_all <;> linarith

/-- C9: the API wrappers never throw — for every fetch outcome each of
searchMathProblem and submitFeedback returns either a success value or a
failure value, success happens exactly on an ok response with a parsed
body, a rejected fetch surfaces as failure with its message, a non-ok
response surfaces as failure with the HTTP status message, and a body
whose parse throws surfaces as failure with the parse message. -/
theorem api_wrappers_never_throw {α : Type} (o : FetchOutcome α) :
    ((∃ d, searchMathProblem o = ApiResult.success d) ∨
      (∃ e, searchMathProblem o = ApiResult.failure e)) ∧
    ((∃ d, submitFeedback o = ApiResult.success d) ∨
      (∃ e, submitFeedback o = ApiResult.failure e)) ∧
    (∀ s b, o = FetchOutcome.response true s (Except.ok b) →
      searchMathProblem o = ApiResult.success b ∧
      submitFeedback o = ApiResult.success b) ∧
    (∀ m, o = FetchOutcome.fetchError m →
      searchMathProblem o = ApiResult.failure m ∧
      submitFeedback o = ApiResult.failure m) ∧
    (∀ s b, o = FetchOutcome.response false s b →
      searchMathProblem o = ApiResult.failure
          (String.append "HTTP error! status: " (toString s)) ∧
      submitFeedback o = ApiResult.failure
          (String.append "HTTP error! status: " (toString s))) ∧
    (∀ s m, o = FetchOutcome.response true s (Except.error m) →
      searchMathProblem o = ApiResult.failure m ∧
      submitFeedback o = ApiResult.failure m) := by
  obtain m | ⟨ok, s, b⟩ := o
  · simp [searchMathProblem, submitFeedback, apiTryBody]
  · cases ok <;> obtain d | e := b <;>
      simp [searchMathProblem, submitFeedback, apiTryBody]

/-- C9 witness: a parsed ok response yields success with the data, and a
rejected fetch yields failure with the message, at concrete inputs. -/
theorem api_wrappers_never_throw_witness :
    searchMathProblem (FetchOutcome.response true 7 (Except.ok (3 : Nat)))
        = ApiResult.success 3 ∧
    submitFeedback (FetchOutcome.fetchError "net down" : FetchOutcome Nat)
        = ApiResult.failure "net down" :=
  ⟨((api_wrappers_never_throw
      (FetchOutcome.response true 7 (Except.ok (3 : Nat)))).2.2.1 7 3 rfl).1,
   ((api_wrappers_never_throw
      (FetchOutcome.fetchError "net down" : FetchOutcome Nat)).2.2.2.1
        "net down" rfl).2⟩

/-- C10: getSourceDisplayName is total over source-tag strings — KB and
MCP map to their display names, every other string (the LLM tag included)
is returned unchanged. -/
theorem getSourceDisplayName_total :
    getSourceDisplayName "KB" = "Knowledge Base" ∧
    getSourceDisplayName "MCP" = "Web Search" ∧
    getSourceDisplayName "LLM" = "LLM" ∧
    ∀ s : String, s ≠ "KB" → s ≠ "MCP" → getSourceDisplayName s = s := by
  refine ⟨by decide, by decide, by decide, ?_⟩
  intro s h1 h2
  simp [getSourceDisplayName, h1, h2]

/-- C10 witness: an unlisted tag is displayed unchanged at a concrete
input. -/
theorem getSourceDisplayName_total_witness :
    ("Oracle" : String) ≠ "KB" ∧ ("Oracle" : String) ≠ "MCP" ∧
    getSourceDisplayName "Oracle" = "Oracle" :=
  ⟨by decide, by decide,
   getSourceDisplayName_total.2.2.2 "Oracle" (by decide) (by decide)⟩

/-! Embedding of frontend/src/pages/Search.js -/

/-- Character class removed by the trim call of JavaScript strings, for
the characters that occur in practice. -/
def jsWhitespace (c : Char) : Bool :=
  c == ' ' || c == '\t' || c == '\n' || c == '\r'

/-- JavaScript String.prototype.trim: whitespace is removed from both
ends of the string. -/
def jsTrim (s : String) : String :=
  String.mk (((s.data.dropWhile jsWhitespace).reverse.dropWhile
    jsWhitespace).reverse)

/-- JavaScript String.prototype.length, as the number of characters. -/
def jsLength (s : String) : Nat := s.data.length

/-- Fields of the backend search payload that Search.js reads when it
builds a feedback submission. -/
structure SearchData where
  final_answer : String
  response_id : String
deriving DecidableEq

/-- Component state of the Search page: the question text, the loading
flag, the displayed search result, and the displayed error. -/
structure SearchState where
  question : String
  isLoading : Bool
  searchResult : Option SearchData
  error : Option String
deriving DecidableEq

/-- Observable result of one handleSearch run: how many times
searchMathProblem was invoked, and the state after the run. -/
structure HandleSearchRun where
  searchCalls : Nat
  state : SearchState
deriving DecidableEq

/-- handleSearch from Search.js: an early return with a toast when the
trimmed question is empty; otherwise exactly one searchMathProblem call
whose result either becomes the displayed search result or the displayed
error, with the loading flag cleared at the end. The fetch outcome the
call would observe is passed explicitly. -/
def handleSearch (st : SearchState) (o : FetchOutcome SearchData) :
    HandleSearchRun :=
  if jsTrim st.question = "" then
    { searchCalls := 0, state := st }
  else
    match searchMathProblem o with
    | .success d =>
        { searchCalls := 1,
          state := { st with searchResult := some d, error := none,
                             isLoading := false } }
    | .failure e =>
        { searchCalls := 1,
          state := { st with searchResult := none, error := some e,
                             isLoading := false } }

/-- Feedback payload built by handleFeedback: exactly the four fields of
the JavaScript object literal. -/
structure FeedbackPayload where
  question : String
  response : String
  correct : Bool
  response_id : String
deriving DecidableEq

/-- Observable result of one handleFeedback run: the payload sent to
submitFeedback (none on the early return), whether the write succeeded,
and the state after the run. -/
structure HandleFeedbackRun where
  payload : Option FeedbackPayload
  succeeded : Bool
  state : SearchState
deriving DecidableEq

/-- handleFeedback from Search.js: an early return when no search result
is displayed; otherwise it sends question, response text, correctness
flag and response identifier to submitFeedback and only raises a toast on
either outcome — no state setter is called. -/
def handleFeedback {α : Type} (st : SearchState) (isCorrect : Bool)
    (o : FetchOutcome α) : HandleFeedbackRun :=
  match st.searchResult with
  | none => { payload := none, succeeded := false, state := st }
  | some sr =>
      let fd : FeedbackPayload :=
        { question := st.question, response := sr.final_answer,
          correct := isCorrect, response_id := sr.response_id }
      match submitFeedback o with
      | .success _ => { payload := some fd, succeeded := true, state := st }
      | .failure _ => { payload := some fd, succeeded := false, state := st }

/-- C8: with a displayed search result, handleFeedback sends exactly the
question text, the response text, the correctness flag and the response
identifier of the displayed result, and the page state — the displayed
result included — is unchanged whether the write succeeds or fails. -/
theorem handleFeedback_payload_and_frame {α : Type} (st : SearchState)
    (isCorrect : Bool) (o : FetchOutcome α) (sr : SearchData)
    (h : st.searchResult = some sr) :
    (handleFeedback st isCorrect o).payload =
      some { question := st.question, response := sr.final_answer,
             correct := isCorrect, response_id := sr.response_id } ∧
    (handleFeedback st isCorrect o).state = st := by
  unfold handleFeedback
  rw [h]
  cases submitFeedback o <;> simp

/-- C8 witness: a concrete state with a displayed result sends the four
fields and leaves the state unchanged, here on a failing write. -/
theorem handleFeedback_payload_and_frame_witness :
    ({ question := "x^2+5x+6=0", isLoading := false,
       searchResult := some { final_answer := "x = -2 or x = -3",
                              response_id := "r1" },
       error := none } : SearchState).searchResult =
      some { final_answer := "x = -2 or x = -3", response_id := "r1" } ∧
    (handleFeedback
        ({ question := "x^2+5x+6=0", isLoading := false,
           searchResult := some { final_answer := "x = -2 or x = -3",
                                  response_id := "r1" },
           error := none } : SearchState) true
        (FetchOutcome.fetchError "down" : FetchOutcome Nat)).payload =
      some { question := "x^2+5x+6=0", response := "x = -2 or x = -3",
             correct := true, response_id := "r1" } ∧
    (handleFeedback
        ({ question := "x^2+5x+6=0", isLoading := false,
           searchResult := some { final_answer := "x = -2 or x = -3",
                                  response_id := "r1" },
           error := none } : SearchState) true
        (FetchOutcome.fetchError "down" : FetchOutcome Nat)).state =
      { question := "x^2+5x+6=0", isLoading := false,
        searchResult := some { final_answer := "x = -2 or x = -3",
                               response_id := "r1" },
        error := none } :=
  ⟨rfl,
   (handleFeedback_payload_and_frame _ true _ _ rfl).1,
   (handleFeedback_payload_and_frame _ true _ _ rfl).2⟩

/-! Spec-modelled backend core. The FastAPI backend named by the README
(backend/routes, backend/services) is not among the provided source
files; the Input Guard, the Knowledge Base and Web Search collaborator
outcomes, the Confidence Router and the Response Synthesizer are modelled
from the spec, sections 4.1 to 4.6. -/

/-- Source tag of a candidate answer. -/
inductive Source where
  | KB
  | MCP
  | LLM
deriving DecidableEq

/-- Modelled from the spec: outcome of the Knowledge Base Retriever
(section 4.2), whose backend implementation is missing from the sources.
A retrieval failure is distinguished from an empty ranked list; each
result pairs answer text with its similarity-as-confidence score. -/
inductive KBOutcome where
  | failure
  | results (ranked : List (String × ℚ))
deriving DecidableEq

/-- Modelled from the spec: outcome of the Web Search Retriever (section
4.3), whose backend implementation is missing from the sources: a failure
or timeout, or one candidate with a heuristic confidence. -/
inductive MCPOutcome where
  | failure
  | candidate (text : String) (confidence : ℚ)
deriving DecidableEq

/-- Responses the three collaborators would give if invoked, fixed for
one request, as the spec prescribes for driving the Router with mocks. -/
structure Env where
  kb : KBOutcome
  mcp : MCPOutcome
  llmText : String
  llmConfidence : ℚ
deriving DecidableEq

/-- HIGH confidence threshold of the spec, default 0.8. -/
def HIGH : ℚ := 0.8

/-- MEDIUM confidence threshold of the spec, default 0.6. -/
def MEDIUM : ℚ := 0.6

/-- Confidence of the top KB candidate: 0 if the list is empty or the
retrieval failed, as section 4.5 prescribes. -/
def cKbOf : KBOutcome → ℚ
  | .failure => 0
  | .results [] => 0
  | .results (r :: _) => r.2

/-- Answer text of the top KB candidate. -/
def kbTopText : KBOutcome → String
  | .failure => ""
  | .results [] => ""
  | .results (r :: _) => r.1

/-- Number of KB results returned. -/
def kbCount : KBOutcome → Nat
  | .failure => 0
  | .results l => l.length

/-- Confidence of the MCP candidate: 0 on failure, as section 4.5
prescribes. -/
def cMcpOf : MCPOutcome → ℚ
  | .failure => 0
  | .candidate _ c => c

/-- Answer text of the MCP candidate. -/
def mcpText : MCPOutcome → String
  | .failure => ""
  | .candidate t _ => t

/-- Output of the Router, with the call counts of the collaborators made
explicit so that lazy escalation is observable. -/
structure RoutingDecision where
  source : Source
  answer : String
  confidence : ℚ
  attempted : List Source
  strategy : String
  kbCalls : Nat
  searchCalls : Nat
  llmCalls : Nat
  kbResultsCount : Nat
deriving DecidableEq

/-- Modelled from the spec: the Confidence Router (section 4.5), whose
backend implementation is missing from the sources. Stage KB terminates
when the top confidence reaches HIGH; stage MCP is entered otherwise and
terminates when its confidence reaches MEDIUM and is at least the KB
confidence; stage LLM takes the generative candidate unconditionally.
Each collaborator is called at most once and the call counts record which
stages ran. -/
def route (env : Env) : RoutingDecision :=
  let ckb := cKbOf env.kb
  if HIGH ≤ ckb then
    { source := .KB, answer := kbTopText env.kb, confidence := ckb,
      attempted := [.KB], strategy := "kb_only",
      kbCalls := 1, searchCalls := 0, llmCalls := 0,
      kbResultsCount := kbCount env.kb }
  else
    let cmcp := cMcpOf env.mcp
    if MEDIUM ≤ cmcp ∧ ckb ≤ cmcp then
      { source := .MCP, answer := mcpText env.mcp, confidence := cmcp,
        attempted := [.KB, .MCP], strategy := "kb_to_mcp",
        kbCalls := 1, searchCalls := 1, llmCalls := 0,
        kbResultsCount := 0 }
    else
      { source := .LLM, answer := env.llmText,
        confidence := env.llmConfidence,
        attempted := [.KB, .MCP, .LLM], strategy := "kb_to_mcp_to_llm",
        kbCalls := 1, searchCalls := 1, llmCalls := 1,
        kbResultsCount := 0 }

/-- Externally visible response envelope, per the interface table of
section 6. -/
structure Response where
  final_answer : String
  source : Source
  response_id : String
  response_time_ms : Nat
  confidence_score : ℚ
  kb_results_count : Nat
  search_strategy : String
  guardrails_applied : Bool
deriving DecidableEq

/-- Modelled from the spec: the Response Synthesizer (section 4.6), whose
backend implementation is missing from the sources. A pure copy of the
chosen candidate and the decision metadata into the envelope; only the
latency field depends on the elapsed time. -/
def synthesize (qid : String) (guardrailsApplied : Bool)
    (d : RoutingDecision) (elapsedMs : Nat) : Response :=
  { final_answer := d.answer, source := d.source, response_id := qid,
    response_time_ms := elapsedMs, confidence_score := d.confidence,
    kb_results_count := d.kbResultsCount, search_strategy := d.strategy,
    guardrails_applied := guardrailsApplied }

/-- Verdict of the Input Guard. -/
inductive ValidationResult where
  | ok (sanitized : String)
  | rejected (reason : String)
deriving DecidableEq

/-- Modelled from the spec: the Input Guard (section 4.1), whose backend
implementation is missing from the sources. The external content-safety
checker is a parameter returning pass or fail plus a sanitized form. The
constraints are checked in the order the spec lists them: non-empty after
trimming, then maximum length 1000, then safety. -/
def validate (check : String → Bool × String) (raw : String) :
    ValidationResult :=
  if jsTrim raw = "" then .rejected "empty"
  else if 1000 < jsLength raw then .rejected "too_long"
  else
    match check raw with
    | (true, sanitized) => .ok sanitized
    | (false, _) => .rejected "unsafe_content"

/-- Observable result of one pipeline run: the rejection reason or the
delivered response, and how often each collaborator was called. -/
structure PipelineRun where
  rejectedReason : Option String
  delivered : Option Response
  kbCalls : Nat
  searchCalls : Nat
  llmCalls : Nat
deriving DecidableEq

/-- Modelled from the spec: the control flow of section 2 — Input Guard,
then the Router over the collaborators, then the Synthesizer. On
rejection the pipeline terminates at once with no retrieval work. -/
def pipeline (check : String → Bool × String) (qid raw : String)
    (env : Env) (elapsedMs : Nat) : PipelineRun :=
  match validate check raw with
  | .rejected r =>
      { rejectedReason := some r, delivered := none,
        kbCalls := 0, searchCalls := 0, llmCalls := 0 }
  | .ok sanitized =>
      let d := route env
      { rejectedReason := none,
        delivered := some (synthesize qid (sanitized != raw) d elapsedMs),
        kbCalls := d.kbCalls, searchCalls := d.searchCalls,
        llmCalls := d.llmCalls }

/-! Concrete collaborator environments and a pass-through safety checker,
used by the witnesses below. -/

/-- Safety checker that passes every input unchanged. -/
def passCheck : String → Bool × String := fun s => (true, s)

/-- Environment with a high-confidence KB hit, the kb_only scenario of
the spec. -/
def envKbHigh : Env :=
  { kb := .results [("x = -2 or x = -3", 0.91)], mcp := .failure,
    llmText := "", llmConfidence := 0 }

/-- Environment with KB score 0.5 and MCP score 0.65, the kb_to_mcp
scenario of the spec. -/
def envKbLowMcpMid : Env :=
  { kb := .results [("kb answer", 0.5)],
    mcp := .candidate "web answer" 0.65,
    llmText := "llm answer", llmConfidence := 0.7 }

/-- Environment with KB score 0.3 and an unavailable MCP, the
kb_to_mcp_to_llm scenario of the spec. -/
def envKbLowMcpDown : Env :=
  { kb := .results [("kb answer", 0.3)], mcp := .failure,
    llmText := "llm answer", llmConfidence := 0.7 }

/-- Page state with an empty question. -/
def emptyState : SearchState :=
  { question := "", isLoading := false, searchResult := none,
    error := none }

/-- String of 1001 blanks: over-length and blank after trimming. -/
def blankOverlong : String := String.mk (List.replicate 1001 ' ')

/-- String of 1001 letters: over-length and not blank after trimming. -/
def overlongA : String := String.mk (List.replicate 1001 'a')

/-- C1: whenever the KB top-candidate confidence reaches the HIGH
threshold 0.8, the Router selects the KB candidate, records strategy
kb_only, and neither the search tool nor the LLM is called. -/
theorem router_kb_high_short_circuits (env : Env)
    (h : HIGH ≤ cKbOf env.kb) :
    (route env).source = Source.KB ∧
    (route env).answer = kbTopText env.kb ∧
    (route env).strategy = "kb_only" ∧
    (route env).searchCalls = 0 ∧
    (route env).llmCalls = 0 := by
  simp [route, h]

/-- C1 witness: the spec scenario with KB top score 0.91 yields source
KB, strategy kb_only and zero search and LLM calls. -/
theorem router_kb_high_short_circuits_witness :
    HIGH ≤ cKbOf envKbHigh.kb ∧
    (route envKbHigh).source = Source.KB ∧
    (route envKbHigh).strategy = "kb_only" ∧
    (route envKbHigh).searchCalls = 0 ∧
    (route envKbHigh).llmCalls = 0 :=
  ⟨by norm_num [envKbHigh, cKbOf, HIGH],
   (router_kb_high_short_circuits envKbHigh
      (by norm_num [envKbHigh, cKbOf, HIGH])).1,
   (router_kb_high_short_circuits envKbHigh
      (by norm_num [envKbHigh, cKbOf, HIGH])).2.2.1,
   (router_kb_high_short_circuits envKbHigh
      (by norm_num [envKbHigh, cKbOf, HIGH])).2.2.2.1,
   (router_kb_high_short_circuits envKbHigh
      (by norm_num [envKbHigh, cKbOf, HIGH])).2.2.2.2⟩

/-- C2: below the HIGH threshold the Router calls the search tool exactly
once, selects the MCP candidate exactly when the MCP confidence reaches
MEDIUM and is at least the KB confidence — taking its text and strategy
kb_to_mcp — and otherwise continues to the LLM stage. -/
theorem router_mcp_selection_iff (env : Env)
    (h : cKbOf env.kb < HIGH) :
    (route env).searchCalls = 1 ∧
    ((route env).source = Source.MCP ↔
      (MEDIUM ≤ cMcpOf env.mcp ∧ cKbOf env.kb ≤ cMcpOf env.mcp)) ∧
    ((MEDIUM ≤ cMcpOf env.mcp ∧ cKbOf env.kb ≤ cMcpOf env.mcp) →
      (route env).answer = mcpText env.mcp ∧
      (route env).strategy = "kb_to_mcp") ∧
    (¬ (MEDIUM ≤ cMcpOf env.mcp ∧ cKbOf env.kb ≤ cMcpOf env.mcp) →
      (route env).source = Source.LLM) := by
  have h1 : ¬ HIGH ≤ cKbOf env.kb := not_le.mpr h
  by_cases hm : MEDIUM ≤ cMcpOf env.mcp ∧ cKbOf env.kb ≤ cMcpOf env.mcp
  · simp [route, h1, hm]
  · simp [route, h1, hm]

/-- C2 witness: the spec scenario with KB score 0.5 and MCP score 0.65
calls the search tool once and selects the MCP source. -/
theorem router_mcp_selection_iff_witness :
    cKbOf envKbLowMcpMid.kb < HIGH ∧
    (route envKbLowMcpMid).searchCalls = 1 ∧
    (route envKbLowMcpMid).source = Source.MCP :=
  ⟨by norm_num [envKbLowMcpMid, cKbOf, HIGH],
   (router_mcp_selection_iff envKbLowMcpMid
      (by norm_num [envKbLowMcpMid, cKbOf, HIGH])).1,
   ((router_mcp_selection_iff envKbLowMcpMid
      (by norm_num [envKbLowMcpMid, cKbOf, HIGH])).2.1).mpr
     (by norm_num [envKbLowMcpMid, cKbOf, cMcpOf, MEDIUM])⟩

/-- C3: when the KB confidence is below MEDIUM and the MCP stage failed
or scored below MEDIUM, the Router reaches the terminal LLM stage and
selects the LLM candidate unconditionally, with strategy
kb_to_mcp_to_llm — the query is never left without an answer. -/
theorem router_low_kb_low_mcp_falls_to_llm (env : Env)
    (hkb : cKbOf env.kb < MEDIUM)
    (hmcp : env.mcp = MCPOutcome.failure ∨ cMcpOf env.mcp < MEDIUM) :
    (route env).source = Source.LLM ∧
    (route env).answer = env.llmText ∧
    (route env).strategy = "kb_to_mcp_to_llm" ∧
    (route env).llmCalls = 1 := by
  have hmm : cMcpOf env.mcp < MEDIUM := by
    rcases hmcp with hf | hlt
    · rw [hf]; norm_num [cMcpOf, MEDIUM]
    · exact hlt
  have hmh : MEDIUM < HIGH := by norm_num [MEDIUM, HIGH]
  have h1 : ¬ HIGH ≤ cKbOf env.kb := by
    rw [not_le]; linarith
  have hm : ¬ (MEDIUM ≤ cMcpOf env.mcp ∧
      cKbOf env.kb ≤ cMcpOf env.mcp) := by
    rintro ⟨hmed, _⟩
    exact absurd hmed (not_le.mpr hmm)
  simp [route, h1, hm]

/-- C3 witness: the spec scenario with KB score 0.3 and an unavailable
MCP yields the LLM source with strategy kb_to_mcp_to_llm. -/
theorem router_low_kb_low_mcp_falls_to_llm_witness :
    cKbOf envKbLowMcpDown.kb < MEDIUM ∧
    envKbLowMcpDown.mcp = MCPOutcome.failure ∧
    (route envKbLowMcpDown).source = Source.LLM ∧
    (route envKbLowMcpDown).answer = "llm answer" ∧
    (route envKbLowMcpDown).strategy = "kb_to_mcp_to_llm" :=
  ⟨by norm_num [envKbLowMcpDown, cKbOf, MEDIUM], rfl,
   (router_low_kb_low_mcp_falls_to_llm envKbLowMcpDown
      (by norm_num [envKbLowMcpDown, cKbOf, MEDIUM]) (Or.inl rfl)).1,
   (router_low_kb_low_mcp_falls_to_llm envKbLowMcpDown
      (by norm_num [envKbLowMcpDown, cKbOf, MEDIUM]) (Or.inl rfl)).2.1,
   (router_low_kb_low_mcp_falls_to_llm envKbLowMcpDown
      (by norm_num [envKbLowMcpDown, cKbOf, MEDIUM]) (Or.inl rfl)).2.2.1⟩

/-- C5: the pipeline is deterministic — the routing decision is a pure
function of the collaborator responses, and responses synthesized from it
at two different elapsed times agree on every field other than the
latency field. -/
theorem routing_deterministic_modulo_latency (env : Env) (qid : String)
    (g : Bool) (t1 t2 : Nat) :
    (synthesize qid g (route env) t1).final_answer =
      (synthesize qid g (route env) t2).final_answer ∧
    (synthesize qid g (route env) t1).source =
      (synthesize qid g (route env) t2).source ∧
    (synthesize qid g (route env) t1).response_id =
      (synthesize qid g (route env) t2).response_id ∧
    (synthesize qid g (route env) t1).confidence_score =
      (synthesize qid g (route env) t2).confidence_score ∧
    (synthesize qid g (route env) t1).kb_results_count =
      (synthesize qid g (route env) t2).kb_results_count ∧
    (synthesize qid g (route env) t1).search_strategy =
      (synthesize qid g (route env) t2).search_strategy ∧
    (synthesize qid g (route env) t1).guardrails_applied =
      (synthesize qid g (route env) t2).guardrails_applied :=
  ⟨rfl, rfl, rfl, rfl, rfl, rfl, rfl⟩

/-- C6: a question that is blank after trimming makes handleSearch return
before calling searchMathProblem and leave the state alone, and makes the
Input Guard reject the raw text with reason empty so the pipeline does no
retrieval work at all. -/
theorem empty_question_rejected_no_search (st : SearchState)
    (o : FetchOutcome SearchData) (check : String → Bool × String)
    (qid : String) (env : Env) (t : Nat)
    (h : jsTrim st.question = "") :
    (handleSearch st o).searchCalls = 0 ∧
    (handleSearch st o).state = st ∧
    validate check st.question = ValidationResult.rejected "empty" ∧
    (pipeline check qid st.question env t).kbCalls = 0 ∧
    (pipeline check qid st.question env t).searchCalls = 0 ∧
    (pipeline check qid st.question env t).llmCalls = 0 := by
  have hv : validate check st.question =
      ValidationResult.rejected "empty" := by
    simp [validate, h]
  refine ⟨by simp [handleSearch, h], by simp [handleSearch, h], hv,
    by simp [pipeline, hv], by simp [pipeline, hv],
    by simp [pipeline, hv]⟩

/-- C6 witness: the empty question is rejected with reason empty and
causes no search call, at concrete inputs. -/
theorem empty_question_rejected_no_search_witness :
    jsTrim emptyState.question = "" ∧
    (handleSearch emptyState (FetchOutcome.fetchError "down")).searchCalls
      = 0 ∧
    validate passCheck emptyState.question =
      ValidationResult.rejected "empty" ∧
    (pipeline passCheck "q1" emptyState.question envKbHigh 5).searchCalls
      = 0 :=
  ⟨rfl,
   (empty_question_rejected_no_search emptyState
      (FetchOutcome.fetchError "down") passCheck "q1" envKbHigh 5 rfl).1,
   (empty_question_rejected_no_search emptyState
      (FetchOutcome.fetchError "down") passCheck "q1" envKbHigh 5
      rfl).2.2.1,
   (empty_question_rejected_no_search emptyState
      (FetchOutcome.fetchError "down") passCheck "q1" envKbHigh 5
      rfl).2.2.2.2.1⟩

/-- C7 counterexample: a 1001-character blank string exceeds the maximum
length, yet the Input Guard rejects it with reason empty — the blank
check fires first — and not with reason too_long. -/
theorem overlong_blank_rejected_empty_not_too_long :
    1000 < jsLength blankOverlong ∧
    validate passCheck blankOverlong = ValidationResult.rejected "empty" ∧
    validate passCheck blankOverlong ≠
      ValidationResult.rejected "too_long" :=
  ⟨by decide, by decide, by decide⟩

/-- C7 amended: every question longer than 1000 characters is rejected by
the Input Guard before any retrieval work — zero KB, search and LLM
calls — with reason too_long whenever the text is not blank after
trimming; a blank over-length text is rejected as empty instead. -/
theorem overlong_rejected_before_retrieval
    (check : String → Bool × String) (qid raw : String) (env : Env)
    (t : Nat) (h : 1000 < jsLength raw) :
    (∃ r, validate check raw = ValidationResult.rejected r) ∧
    (pipeline check qid raw env t).kbCalls = 0 ∧
    (pipeline check qid raw env t).searchCalls = 0 ∧
    (pipeline check qid raw env t).llmCalls = 0 ∧
    (jsTrim raw ≠ "" →
      validate check raw = ValidationResult.rejected "too_long") := by
  by_cases he : jsTrim raw = ""
  · have hv : validate check raw = ValidationResult.rejected "empty" := by
      simp [validate, he]
    exact ⟨⟨"empty", hv⟩, by simp [pipeline, hv], by simp [pipeline, hv],
      by simp [pipeline, hv], fun hc => absurd he hc⟩
  · have hv : validate check raw =
        ValidationResult.rejected "too_long" := by
      simp [validate, he, h]
    exact ⟨⟨"too_long", hv⟩, by simp [pipeline, hv],
      by simp [pipeline, hv], by simp [pipeline, hv], fun _ => hv⟩

/-- C7 amended witness: a 1001-letter question is rejected with reason
too_long and causes no retrieval call, at concrete inputs. -/
theorem overlong_rejected_before_retrieval_witness :
    1000 < jsLength overlongA ∧
    validate passCheck overlongA = ValidationResult.rejected "too_long" ∧
    (pipeline passCheck "q2" overlongA envKbHigh 5).searchCalls = 0 :=
  ⟨by decide,
   (overlong_rejected_before_retrieval passCheck "q2" overlongA envKbHigh
      5 (by decide)).2.2.2.2 (by decide),
   (overlong_rejected_before_retrieval passCheck "q2" overlongA envKbHigh
      5 (by decide)).2.2.1⟩

end MathAgenticRag
